import Mathlib

/-!
Shallow embedding of the security mediation core of the visual-analytics
repository (src/analytics).  Datasets (pandas DataFrames of string-valued
person records) are modelled as a list of column names together with rows
given as association lists from column name to cell value.  Fallible
DataFrame operations (pandas KeyError on a missing column) return Except.
-/

/-- A row of a tabular dataset: an association list column-name ↦ value. -/
abbrev Row := List (String × String)

/-- A principal context (`user_context` dict in the source). -/
abbrev Ctx := List (String × String)

/-- Cell lookup in a row; a missing key yields the empty string. -/
def cell (r : Row) (c : String) : String :=
  ((r.find? (fun p => p.1 == c)).map Prod.snd).getD ""

/-- A dataset: column names plus rows (pandas DataFrame of strings). -/
structure Df where
  cols : List String
  rows : List Row
  deriving DecidableEq, Repr

/-- The empty dataset. -/
def dfEmpty : Df := ⟨[], []⟩

/-- Substring test: does `hay` contain `needle`? (Python `needle in hay`.) -/
def strContains (hay needle : String) : Bool :=
  decide (needle.data <:+: hay.data)

/- ---------- data_security.py : DataSecurityManager ---------- -/

/-- `sensitive_fields['email']`. -/
def emailFields : List String := ["email", "mail"]

/-- `sensitive_fields['phone']`. -/
def phoneFields : List String := ["phone", "telephone", "mobile"]

/-- `sensitive_fields['employee_id']`. -/
def employeeIdFields : List String := ["employee_id", "employeeNumber", "workerId"]

/-- `any(field in column.lower() for field in fields)`. -/
def colMatches (fields : List String) (column : String) : Bool :=
  fields.any (fun f => strContains column.toLower f)

/-- `DataSecurityManager.mask_email` on the character list of the email:
keep first and last character of the local part (everything before the
first '@'), star the middle; a local part of length ≤ 2 is fully starred;
the domain is untouched. -/
def mask_email_chars (l : List Char) : List Char :=
  if l.isEmpty || !(l.contains '@') then l
  else
    let username := l.takeWhile (fun c => c != '@')
    let domain := (l.dropWhile (fun c => c != '@')).tail
    let masked_username :=
      if username.length ≤ 2 then List.replicate username.length '*'
      else username.take 1 ++ List.replicate (username.length - 2) '*' ++
           username.drop (username.length - 1)
    masked_username ++ '@' :: domain

/-- `DataSecurityManager.mask_email`. -/
def mask_email (email : String) : String :=
  String.mk (mask_email_chars email.data)

/-- `DataSecurityManager.mask_phone`. -/
def mask_phone (phone : String) : String :=
  if phone.data.isEmpty then phone
  else
    let digits := phone.data.filter Char.isDigit
    if 10 ≤ digits.length then
      "***-***-" ++ String.mk (digits.drop (digits.length - 4))
    else "***-****"

/-- `DataSecurityManager.mask_employee_id`. -/
def mask_employee_id (emp_id : String) : String :=
  if emp_id.data.isEmpty then emp_id
  else if emp_id.length ≤ 3 then String.mk (List.replicate emp_id.length '*')
  else String.mk (emp_id.data.take 2 ++ List.replicate (emp_id.length - 3) '*' ++
                  emp_id.data.drop (emp_id.length - 1))

/-- `masked_df[column] = masked_df[column].apply(f)`: rewrite one column of
every row. -/
def applyToCol (rows : List Row) (c : String) (f : String → String) : List Row :=
  rows.map (fun r => r.map (fun p => if p.1 == c then (p.1, f p.2) else p))

/-- The viewer/auditor masking loop body of `apply_data_masking`. -/
def viewerMaskCol (rows : List Row) (c : String) : List Row :=
  if colMatches emailFields c then applyToCol rows c mask_email
  else if colMatches phoneFields c then applyToCol rows c mask_phone
  else if colMatches employeeIdFields c then applyToCol rows c mask_employee_id
  else rows

/-- The manager masking loop body of `apply_data_masking`. -/
def managerMaskCol (rows : List Row) (c : String) : List Row :=
  if colMatches phoneFields c then applyToCol rows c mask_phone
  else rows

/-- `DataSecurityManager.apply_data_masking`: admin is untouched; viewer and
auditor get email/phone/employee-id columns masked; manager gets phone
columns masked; any other role gets a plain copy. -/
def apply_data_masking (df : Df) (user_role : String) : Df :=
  if user_role = "admin" then df
  else if user_role = "viewer" ∨ user_role = "auditor" then
    { df with rows := df.cols.foldl viewerMaskCol df.rows }
  else if user_role = "manager" then
    { df with rows := df.cols.foldl managerMaskCol df.rows }
  else df

/-- `email.split('@')[0] if '@' in email else ''`. -/
def uidOfEmail (email : String) : String :=
  if email.data.contains '@' then
    String.mk (email.data.takeWhile (fun c => c != '@'))
  else ""

/-- The principal's own identifier as the manager branch derives it. -/
def principal_uid (ctx : Ctx) : String := uidOfEmail (cell ctx "email")

/-- `filtered_df[filtered_df['manager'] == user_uid]['uid'].tolist()`. -/
def direct_reports_of (df : Df) (user_uid : String) : List String :=
  (df.rows.filter (fun r => cell r "manager" == user_uid)).map
    (fun r => cell r "uid")

/-- The manager-branch row predicate of `filter_data_by_access_level`:
direct report, self, or report of a direct report. -/
def manager_team_rows (df : Df) (ctx : Ctx) : List Row :=
  let user_uid := principal_uid ctx
  let direct_reports := direct_reports_of df user_uid
  df.rows.filter (fun r =>
    (cell r "manager" == user_uid) || (cell r "uid" == user_uid) ||
    (!direct_reports.isEmpty && direct_reports.contains (cell r "manager")))

/-- Insert a string into an ascending list (ascending sort used to model the
sorted group keys produced by `groupby`). -/
def insertAsc (x : String) : List String → List String
  | [] => [x]
  | y :: ys => if x ≤ y then x :: y :: ys else y :: insertAsc x ys

/-- Ascending insertion sort on strings. -/
def sortAsc (l : List String) : List String := l.foldr insertAsc []

/-- Occurrences of `v` in `xs`. -/
def countOcc (xs : List String) (v : String) : Nat :=
  (xs.filter (fun x => x == v)).length

/-- `x.mode()`: the sorted list of most frequent values. -/
def modeList (xs : List String) : List String :=
  let cands := sortAsc xs.dedup
  let m := (cands.map (countOcc xs)).foldr max 0
  cands.filter (fun c => countOcc xs c == m)

/-- `x.mode().iloc[0] if len(x.mode()) > 0 else 'Unknown'`. -/
def modeOrUnknown (xs : List String) : String :=
  match modeList xs with
  | [] => "Unknown"
  | m :: _ => m

/-- The rows of one department group. -/
def deptGroup (df : Df) (d : String) : List Row :=
  df.rows.filter (fun r => cell r "department" == d)

/-- The department keys of the groupby, sorted ascending. -/
def deptKeys (df : Df) : List String :=
  sortAsc (df.rows.map (fun r => cell r "department")).dedup

/-- The viewer aggregate of `filter_data_by_access_level`:
`groupby('department').agg({'uid': 'count', 'seniority_level': mode})` with
the columns renamed to Department / Team_Size / Common_Seniority. -/
def dept_stats (df : Df) : Df :=
  { cols := ["Department", "Team_Size", "Common_Seniority"],
    rows := (deptKeys df).map (fun d =>
      [("Department", d),
       ("Team_Size", toString (deptGroup df d).length),
       ("Common_Seniority",
        modeOrUnknown ((deptGroup df d).map (fun r => cell r "seniority_level")))]) }

/-- `DataSecurityManager.filter_data_by_access_level`.  Accessing a column
absent from the frame raises a pandas KeyError, modelled as `Except.error`:
the manager branch reads the `uid` column and the viewer aggregation reads
the `uid` and `seniority_level` columns unconditionally. -/
def filter_data_by_access_level (df : Df) (user_role : String) (ctx : Ctx) :
    Except String Df :=
  if user_role = "admin" then .ok df
  else if user_role = "manager" then
    if "manager" ∈ df.cols then
      if "uid" ∈ df.cols then .ok { df with rows := manager_team_rows df ctx }
      else .error "KeyError: uid"
    else .ok df
  else if user_role = "viewer" then
    if 0 < df.rows.length then
      if "department" ∈ df.cols then
        if "uid" ∈ df.cols ∧ "seniority_level" ∈ df.cols then .ok (dept_stats df)
        else .error "KeyError: uid or seniority_level"
      else .ok df
    else .ok df
  else .ok df

/-- `internal_fields` stripped by `sanitize_export_data`. -/
def internal_fields : List String := ["password", "hash", "session", "token", "secret"]

/-- `DataSecurityManager.sanitize_export_data`: drop internal columns, then
apply role-based masking.  (The csv `attrs` provenance metadata is carried
outside the frame's data and is not part of the value model.) -/
def sanitize_export_data (df : Df) (export_format : String) (user_role : String) : Df :=
  let columns_to_remove := df.cols.filter (fun c => colMatches internal_fields c)
  let d1 :=
    if !columns_to_remove.isEmpty then
      { cols := df.cols.filter (fun c => !(columns_to_remove.contains c)),
        rows := df.rows.map (fun r => r.filter (fun p => !(columns_to_remove.contains p.1))) }
    else df
  apply_data_masking d1 user_role

/-- The `permission_map` table of `check_data_access_permission`. -/
def permission_map : List (String × List String) :=
  [("people_data", ["view_all", "view_team"]),
   ("org_chart", ["view_all", "view_team", "view_reports"]),
   ("analytics", ["view_all", "view_reports"]),
   ("export", ["export_data"]),
   ("audit_logs", ["view_audit", "admin"])]

/-- Association-list lookup (Python `dict.get`). -/
def alGet (l : List (String × α)) (k : String) : Option α :=
  (l.find? (fun p => p.1 == k)).map Prod.snd

/-- `DataSecurityManager.check_data_access_permission`. -/
def check_data_access_permission (data_type : String) (user_role : String)
    (user_permissions : List String) : Bool :=
  let required := (alGet permission_map data_type).getD ["view_all"]
  required.any (fun perm => user_permissions.contains perm)

/- ---------- audit_logger.py : AuditLogger ---------- -/

/-- An audit record as serialized by `AuditLogger.log_event` (the user
context carried alongside is derived from ambient session state and is not
part of the record identity the claims are about). -/
structure AuditEvent where
  event_type : String
  details : List (String × String)
  severity : String
  deriving DecidableEq, Repr

/-- `AuditLogger.log_login_attempt`: severity WARNING on failure, INFO on
success. -/
def log_login_attempt (email : String) (success : Bool) : AuditEvent :=
  { event_type := "LOGIN_ATTEMPT",
    details := [("email", email), ("success", toString success),
                ("ip_address", "localhost")],
    severity := if success then "INFO" else "WARNING" }

/-- `AuditLogger.log_data_export`: always WARNING severity. -/
def log_data_export (data_type : String) (record_count : Nat)
    (export_format : String) : AuditEvent :=
  { event_type := "DATA_EXPORT",
    details := [("data_type", data_type),
                ("record_count", toString record_count),
                ("export_format", export_format)],
    severity := "WARNING" }

/- ---------- auth.py : DashboardAuth (local authenticator) ---------- -/

/-- The static credential-store record of `authorized_users`. -/
structure UserRec where
  name : String
  role : String
  permissions : List String
  deriving DecidableEq, Repr

/-- `DashboardAuth.authorized_users`. -/
def authorized_users : List (String × UserRec) :=
  [("crizzo@redhat.com",
    ⟨"Christine Rizzo", "admin", ["view_all", "export_data", "manage_users"]⟩),
   ("demo@redhat.com",
    ⟨"Demo User", "viewer", ["view_team", "view_reports"]⟩)]

/-- The `demo_passwords` table inside `check_password`. -/
def demo_passwords : List (String × String) :=
  [("crizzo@redhat.com", "admin123"), ("demo@redhat.com", "demo123")]

/-- `DashboardAuth.check_password`: known identifier and matching demo
password (`dict.get` returns None on an unknown key, which never equals the
supplied password). -/
def check_password (email password : String) : Bool :=
  if (alGet authorized_users email).isSome then
    alGet demo_passwords email == some password
  else false

/-- A JWT payload as built by `create_session_token` (times in seconds). -/
structure JwtPayload where
  email : String
  exp : Nat
  iat : Nat
  deriving DecidableEq, Repr

/-- HS256 signing, modelled as an injective tagged encoding of key and
payload: a token verifies against a key iff it was produced with that key
over exactly that payload. -/
def hs256_sign (key : String) (p : JwtPayload) : String :=
  "HS256|" ++ key ++ "|" ++ p.email ++ "|" ++ toString p.exp ++ "|" ++ toString p.iat

/-- A signed session token (`jwt.encode` output). -/
structure Jwt where
  payload : JwtPayload
  sig : String
  deriving DecidableEq, Repr

/-- PyJWT decode failures relevant to `verify_session_token`. -/
inductive JwtError where
  | ExpiredSignatureError
  | InvalidTokenError
  deriving DecidableEq, Repr

/-- `jwt.decode(token, key, algorithms=['HS256'])` at current time `now`:
signature is checked, then expiry. -/
def jwt_decode (token : Jwt) (key : String) (now : Nat) : Except JwtError JwtPayload :=
  if token.sig ≠ hs256_sign key token.payload then .error .InvalidTokenError
  else if token.payload.exp < now then .error .ExpiredSignatureError
  else .ok token.payload

/-- `DashboardAuth.create_session_token`: payload {email, exp = now +
timeout minutes, iat = now} signed with the server key. -/
def create_session_token (secret_key : String) (user_email : String)
    (now session_timeout : Nat) : Jwt :=
  let payload : JwtPayload :=
    { email := user_email, exp := now + session_timeout * 60, iat := now }
  { payload := payload, sig := hs256_sign secret_key payload }

/-- `DashboardAuth.verify_session_token`: decode (signature then expiry),
then re-resolve the subject in `authorized_users`; any decode error yields
None. -/
def verify_session_token (secret_key : String) (now : Nat) (token : Jwt) :
    Option UserRec :=
  match jwt_decode token secret_key now with
  | .ok payload => alGet authorized_users payload.email
  | .error _ => none

/-- The observable outcome of one submit of `DashboardAuth.login_form`. -/
structure LoginOutcome where
  auditEvents : List AuditEvent
  sessionToken : Option Jwt
  sessionUser : Option UserRec
  uiMessage : String
  deriving DecidableEq, Repr

/-- The submit branch of `DashboardAuth.login_form` (lines 99-107 of
auth.py): on valid credentials a session token is issued and the user is
stored in session state; on invalid credentials an error is shown.  Neither
branch calls the audit logger, so the emitted audit-event list is empty. -/
def login_form_submit (secret_key : String) (now session_timeout : Nat)
    (email password : String) : LoginOutcome :=
  if check_password email password then
    { auditEvents := [],
      sessionToken := some (create_session_token secret_key email now session_timeout),
      sessionUser := alGet authorized_users email,
      uiMessage := "Welcome" }
  else
    { auditEvents := [], sessionToken := none, sessionUser := none,
      uiMessage := "Invalid credentials" }

/- ---------- secure_dashboard.py : create_secure_export ---------- -/

/-- The observable outcome of `create_secure_export`. -/
structure ExportOutcome where
  sanitizeInvoked : Bool
  events : List AuditEvent
  download : Option Df
  uiError : Option String
  deriving DecidableEq, Repr

/-- `create_secure_export` (secure_dashboard.py): the `export_data`
permission gate runs first; on denial the function returns before
`sanitize_export_data` and before any DATA_EXPORT audit record; otherwise
the sanitized frame is logged and offered as a csv download. -/
def create_secure_export (df : Df) (export_format : String) (user_role : String)
    (session_permissions : List String) : ExportOutcome :=
  if !(check_data_access_permission "export" user_role session_permissions) then
    { sanitizeInvoked := false, events := [], download := none,
      uiError := some "You don't have permission to export data" }
  else
    let sanitized_df := sanitize_export_data df export_format user_role
    let ev := log_data_export "people_data" sanitized_df.rows.length export_format
    { sanitizeInvoked := true, events := [ev],
      download := if export_format.toLower = "csv" then some sanitized_df else none,
      uiError := none }

/- ---------- rh_sso_auth.py : RedHatSSOAuth (federated authenticator) ---------- -/

/-- The pending-flow storage: the `oauth_state` / `oauth_nonce` /
`oauth_code_verifier` keys of `st.session_state` (None when absent). -/
structure PendingFlow where
  oauth_state : Option String
  oauth_nonce : Option String
  oauth_code_verifier : Option String
  deriving DecidableEq, Repr

/-- ID-token claims as read by `verify_jwt_token` and `map_user_roles`. -/
structure IdClaims where
  nonce : String
  sub : String
  realm_roles : List String
  deriving DecidableEq, Repr

/-- A token-endpoint response body. -/
structure Tokens where
  access_token : String
  refresh_token : String
  id_token : IdClaims
  expires_in : Nat
  deriving DecidableEq, Repr

/-- Identity-provider profile claims as read by `get_user_info` /
`create_user_session`. -/
structure UserInfo where
  email : String
  name : Option String
  preferred_username : String
  groups : List String
  deriving DecidableEq, Repr

/-- `RedHatSSOAuth.exchange_code_for_tokens`: the returned `state` must
equal the stored pending state (a missing stored value never matches);
only then is the token endpoint called with the code and the stored PKCE
verifier.  The endpoint is an oracle returning the parsed 200-response or
None. -/
def exchange_code_for_tokens
    (tokenEndpoint : String → Option String → Option Tokens)
    (flow : PendingFlow) (authorization_code state : String) : Option Tokens :=
  if some state ≠ flow.oauth_state then none
  else tokenEndpoint authorization_code flow.oauth_code_verifier

/-- `RedHatSSOAuth.verify_jwt_token`: the ID token is decoded without
signature verification; its nonce claim must equal the stored pending
nonce. -/
def verify_jwt_token (flow : PendingFlow) (id_token : IdClaims) : Option IdClaims :=
  if some id_token.nonce ≠ flow.oauth_nonce then none
  else some id_token

/-- `RedHatSSOAuth.map_user_roles`: ordered precedence admin, manager,
auditor, default viewer. -/
def map_user_roles (user_info : UserInfo) (claims : IdClaims) : String :=
  let roles := claims.realm_roles
  let groups := user_info.groups
  if roles.contains "ldap-analytics-admin" || groups.contains "ldap-analytics-admin" then
    "admin"
  else if roles.contains "ldap-analytics-manager" || groups.contains "ldap-analytics-manager" then
    "manager"
  else if roles.contains "ldap-analytics-auditor" || groups.contains "ldap-analytics-auditor" then
    "auditor"
  else "viewer"

/-- The SSO `permissions_map` of `create_user_session`. -/
def sso_permissions_map : List (String × List String) :=
  [("admin", ["view_all", "export_data", "manage_users", "view_audit"]),
   ("manager", ["view_team", "export_data", "view_reports"]),
   ("auditor", ["view_audit", "view_reports"]),
   ("viewer", ["view_team", "view_reports"])]

/-- An established SSO user session (`create_user_session` result;
`session_start` is a wall-clock string and is not modelled). -/
structure SsoSession where
  email : String
  name : String
  username : String
  role : String
  permissions : List String
  groups : List String
  sso_sub : String
  access_token : String
  refresh_token : String
  expires_at : Nat
  deriving DecidableEq, Repr

/-- `RedHatSSOAuth.create_user_session`. -/
def create_user_session (user_info : UserInfo) (id_token_claims : IdClaims)
    (tokens : Tokens) (now : Nat) : SsoSession :=
  let user_role := map_user_roles user_info id_token_claims
  { email := user_info.email,
    name := user_info.name.getD user_info.preferred_username,
    username := user_info.preferred_username,
    role := user_role,
    permissions := (alGet sso_permissions_map user_role).getD [],
    groups := user_info.groups,
    sso_sub := id_token_claims.sub,
    access_token := tokens.access_token,
    refresh_token := tokens.refresh_token,
    expires_at := now + tokens.expires_in }

/-- The callback query parameters (`{code, state}` or `{error, ...}`). -/
structure CallbackQuery where
  code : Option String
  state : Option String
  err : Option String
  deriving DecidableEq, Repr

/-- `RedHatSSOAuth.handle_callback`: runs the exchange, profile fetch and
nonce check in order, each early-returning None and leaving the pending
flow as it was; only after a fully successful flow are the three pending
keys deleted.  Network endpoints are oracles. -/
def handle_callback (tokenEndpoint : String → Option String → Option Tokens)
    (userinfoEndpoint : String → Option UserInfo) (now : Nat)
    (flow : PendingFlow) (q : CallbackQuery) :
    PendingFlow × Option SsoSession :=
  match q.code, q.state with
  | some code, some state =>
    match exchange_code_for_tokens tokenEndpoint flow code state with
    | none => (flow, none)
    | some tokens =>
      match userinfoEndpoint tokens.access_token with
      | none => (flow, none)
      | some user_info =>
        match verify_jwt_token flow tokens.id_token with
        | none => (flow, none)
        | some id_token_claims =>
          (⟨none, none, none⟩,
           some (create_user_session user_info id_token_claims tokens now))
  | _, _ => (flow, none)

/- ---------- Heap model of the DataFrame operations ---------- -/

/-!
To settle whether the policy-engine operations mutate their input frame, the
two functions are re-traced at the level of Python object references: a heap
is a list of frames addressed by index, `df.copy()` allocates a fresh frame
at the end of the heap, a pandas column assignment `masked_df[col] = ...`
writes in place at the address of `masked_df`, and boolean-mask selection
`filtered_df[team_filter]` (as well as `groupby(...).agg(...)`) allocates a
fresh frame.  Each function receives the address of its input and returns
the resulting heap together with the address of its result.
-/

/-- A heap of DataFrames, addressed by index. -/
abbrev DfHeap := List Df

/-- Dereference an address. -/
def heapGet (h : DfHeap) (r : Nat) : Df := h.getD r dfEmpty

/-- One iteration of the viewer/auditor masking loop of
`apply_data_masking`, as an in-place write at address `m`. -/
def viewerMaskStep (m : Nat) (h : DfHeap) (c : String) : DfHeap :=
  let df := heapGet h m
  if colMatches emailFields c then h.set m { df with rows := applyToCol df.rows c mask_email }
  else if colMatches phoneFields c then h.set m { df with rows := applyToCol df.rows c mask_phone }
  else if colMatches employeeIdFields c then h.set m { df with rows := applyToCol df.rows c mask_employee_id }
  else h

/-- One iteration of the manager masking loop of `apply_data_masking`, as an
in-place write at address `m`. -/
def managerMaskStep (m : Nat) (h : DfHeap) (c : String) : DfHeap :=
  let df := heapGet h m
  if colMatches phoneFields c then h.set m { df with rows := applyToCol df.rows c mask_phone }
  else h

/-- `apply_data_masking` traced on the heap: admin returns the input
address untouched; otherwise a copy is allocated and the masking loop
mutates the copy in place, column by column. -/
def apply_data_masking_heap (h : DfHeap) (r : Nat) (user_role : String) :
    DfHeap × Nat :=
  if user_role = "admin" then (h, r)
  else
    let df := heapGet h r
    let m := h.length
    let h1 := h ++ [df]
    let h2 :=
      if user_role = "viewer" ∨ user_role = "auditor" then
        df.cols.foldl (viewerMaskStep m) h1
      else if user_role = "manager" then
        df.cols.foldl (managerMaskStep m) h1
      else h1
    (h2, m)

/-- `filter_data_by_access_level` traced on the heap: admin returns the
input address; otherwise a copy is allocated, and the manager selection or
the viewer aggregation each allocate a further fresh frame (boolean-mask
selection and `groupby().agg()` both build new objects; nothing is written
in place). -/
def filter_data_by_access_level_heap (h : DfHeap) (r : Nat)
    (user_role : String) (ctx : Ctx) : DfHeap × Except String Nat :=
  if user_role = "admin" then (h, .ok r)
  else
    let df := heapGet h r
    let m := h.length
    let h1 := h ++ [df]
    if user_role = "manager" then
      if "manager" ∈ df.cols then
        if "uid" ∈ df.cols then
          (h1 ++ [{ df with rows := manager_team_rows df ctx }], .ok (m + 1))
        else (h1, .error "KeyError: uid")
      else (h1, .ok m)
    else if user_role = "viewer" then
      if 0 < df.rows.length then
        if "department" ∈ df.cols then
          if "uid" ∈ df.cols ∧ "seniority_level" ∈ df.cols then
            (h1 ++ [dept_stats df], .ok (m + 1))
          else (h1, .error "KeyError: uid or seniority_level")
        else (h1, .ok m)
      else (h1, .ok m)
    else (h1, .ok m)

/- ---------- Concrete fixtures used by witnesses and counterexamples ---------- -/

/-- A person row: bob, direct report of carol. -/
def rowBob : Row :=
  [("uid", "bob"), ("manager", "carol"), ("department", "Eng"), ("seniority_level", "Senior")]

/-- A person row: alice, report of bob (two levels below carol). -/
def rowAlice : Row :=
  [("uid", "alice"), ("manager", "bob"), ("department", "Eng"), ("seniority_level", "Junior")]

/-- A person row: dave, report of alice (three levels below carol). -/
def rowDave : Row :=
  [("uid", "dave"), ("manager", "alice"), ("department", "Sales"), ("seniority_level", "Junior")]

/-- A person row: carol herself. -/
def rowCarol : Row :=
  [("uid", "carol"), ("manager", "root"), ("department", "Eng"), ("seniority_level", "Principal")]

/-- A small row-level people dataset. -/
def dfPeople : Df :=
  { cols := ["uid", "manager", "department", "seniority_level"],
    rows := [rowBob, rowAlice, rowDave, rowCarol] }

/-- The principal context of manager carol. -/
def ctxCarol : Ctx := [("email", "carol@redhat.com")]

/-- The frame the manager filter produces for carol on `dfPeople`. -/
def dfCarolTeam : Df :=
  { cols := ["uid", "manager", "department", "seniority_level"],
    rows := [rowBob, rowAlice, rowCarol] }

/-- A dataset without a `manager` column, holding a row of a principal
outside any manager's team. -/
def dfNoManager : Df :=
  { cols := ["uid", "department"],
    rows := [[("uid", "zed"), ("department", "Ops")],
             [("uid", "carol"), ("department", "Eng")]] }

/- ---------- Helper lemmas ---------- -/

theorem mem_insertAsc {x a : String} {l : List String} :
    x ∈ insertAsc a l ↔ x = a ∨ x ∈ l := by
  induction l with
  | nil => simp [insertAsc]
  | cons y ys ih =>
    unfold insertAsc
    by_cases hle : a ≤ y
    · simp [hle]
    · simp only [hle, if_false, List.mem_cons, ih]
      tauto

theorem mem_sortAsc {x : String} {l : List String} :
    x ∈ sortAsc l ↔ x ∈ l := by
  induction l with
  | nil => simp [sortAsc]
  | cons y ys ih =>
    show x ∈ insertAsc y (sortAsc ys) ↔ _
    rw [mem_insertAsc, ih, List.mem_cons]

theorem takeWhile_until_at (u d : List Char) (h : '@' ∉ u) :
    (u ++ '@' :: d).takeWhile (fun c => c != '@') = u := by
  induction u with
  | nil => simp [List.takeWhile]
  | cons c cs ih =>
    have hc : (c != '@') = true := by
      simp only [bne_iff_ne, ne_eq]
      intro hEq
      exact h (hEq ▸ List.mem_cons_self c cs)
    simp only [List.cons_append, List.takeWhile_cons, hc, if_true]
    rw [ih (fun hm => h (List.mem_cons_of_mem c hm))]

theorem dropWhile_until_at (u d : List Char) (h : '@' ∉ u) :
    (u ++ '@' :: d).dropWhile (fun c => c != '@') = '@' :: d := by
  induction u with
  | nil => simp [List.dropWhile]
  | cons c cs ih =>
    have hc : (c != '@') = true := by
      simp only [bne_iff_ne, ne_eq]
      intro hEq
      exact h (hEq ▸ List.mem_cons_self c cs)
    simp only [List.cons_append, List.dropWhile_cons, hc, if_true]
    exact ih (fun hm => h (List.mem_cons_of_mem c hm))

theorem mask_email_chars_split (u d : List Char) (h : '@' ∉ u) :
    mask_email_chars (u ++ '@' :: d) =
      (if u.length ≤ 2 then List.replicate u.length '*'
       else u.take 1 ++ List.replicate (u.length - 2) '*' ++
            u.drop (u.length - 1)) ++ '@' :: d := by
  have hmem : '@' ∈ u ++ '@' :: d := List.mem_append_right u (List.mem_cons_self '@' d)
  have hcont : (u ++ '@' :: d).contains '@' = true := by
    simp [List.contains_iff_exists_mem_beq]
  have hne : (u ++ '@' :: d).isEmpty = false := by
    cases u <;> simp [List.isEmpty]
  unfold mask_email_chars
  rw [hcont, hne]
  simp only [Bool.not_true, Bool.or_false, Bool.false_eq_true, if_false]
  rw [takeWhile_until_at u d h, dropWhile_until_at u d h]
  rfl

/- ---------- Claim theorems ---------- -/

/-- C8: for every dataset and principal context, the role `admin` is the
identity for both policy-engine transforms: the row filter returns the
dataset itself and the column mask returns the dataset itself. -/
theorem admin_role_is_identity (df : Df) (ctx : Ctx) :
    filter_data_by_access_level df "admin" ctx = .ok df ∧
    apply_data_masking df "admin" = df := by
  constructor <;> simp [filter_data_by_access_level, apply_data_masking]

/-- C6: a session token whose `exp` timestamp lies in the past fails
`verify_session_token` (no principal is returned), even when its signature
is valid under the server key. -/
theorem verify_rejects_expired_token (secret_key : String) (now : Nat)
    (token : Jwt) (hsig : token.sig = hs256_sign secret_key token.payload)
    (hexp : token.payload.exp < now) :
    verify_session_token secret_key now token = none := by
  simp [verify_session_token, jwt_decode, hsig, hexp]

/-- Witness for C6: a token signed with the server key and expiring at
second 60 is rejected at second 100. -/
theorem verify_rejects_expired_token_witness :
    (create_session_token "server-key" "demo@redhat.com" 0 1).sig =
      hs256_sign "server-key" (create_session_token "server-key" "demo@redhat.com" 0 1).payload ∧
    (create_session_token "server-key" "demo@redhat.com" 0 1).payload.exp < 100 ∧
    verify_session_token "server-key" 100
      (create_session_token "server-key" "demo@redhat.com" 0 1) = none :=
  ⟨rfl, by decide,
   verify_rejects_expired_token "server-key" 100 _ rfl (by decide)⟩

/-- C4 (code bug): the submit branch of `login_form` emits no audit record
at all — neither on a failed attempt nor on a successful one — although
`AuditLogger.log_login_attempt` exists for exactly this purpose and would
give a failed attempt severity WARNING had it been called. -/
theorem login_form_emits_no_audit_record :
    (login_form_submit "your-secret-key-change-this" 0 60
      "demo@redhat.com" "wrong-password").auditEvents = [] ∧
    (login_form_submit "your-secret-key-change-this" 0 60
      "crizzo@redhat.com" "admin123").auditEvents = [] ∧
    (log_login_attempt "demo@redhat.com" false).severity = "WARNING" :=
  ⟨rfl, rfl, rfl⟩

/-- Counterexample for C7: the local part "ab" has length 2, so the code
fully masks it: `mask_email "ab@x.com"` is `"**@x.com"`, not the claimed
`"a*@x.com"`. -/
theorem mask_email_two_char_counterexample :
    mask_email "ab@x.com" = "**@x.com" ∧ mask_email "ab@x.com" ≠ "a*@x.com" :=
  ⟨rfl, by decide⟩

/-- C7 as amended: splitting an email at its first '@', a local part of
length ≥ 3 keeps its first and last character with the middle replaced by
'*' of equal length and the domain untouched; a local part of length ≤ 2
(including "ab") is fully masked; "a@x.com" gives "*@x.com" and "ab@x.com"
gives "**@x.com". -/
theorem mask_email_amended :
    (∀ (u d : List Char), '@' ∉ u → 3 ≤ u.length →
       mask_email (String.mk (u ++ '@' :: d)) =
         String.mk (u.take 1 ++ List.replicate (u.length - 2) '*' ++
                    u.drop (u.length - 1) ++ '@' :: d)) ∧
    (∀ (u d : List Char), '@' ∉ u → u.length ≤ 2 →
       mask_email (String.mk (u ++ '@' :: d)) =
         String.mk (List.replicate u.length '*' ++ '@' :: d)) ∧
    mask_email "a@x.com" = "*@x.com" ∧
    mask_email "ab@x.com" = "**@x.com" := by
  refine ⟨?_, ?_, rfl, rfl⟩
  · intro u d h hlen
    show String.mk (mask_email_chars (u ++ '@' :: d)) = _
    rw [mask_email_chars_split u d h, if_neg (by omega)]
  · intro u d h hlen
    show String.mk (mask_email_chars (u ++ '@' :: d)) = _
    rw [mask_email_chars_split u d h, if_pos hlen]

/-- Witness for C7 (amended): local part "abc" keeps 'a' and 'c'. -/
theorem mask_email_amended_witness :
    ('@' ∉ (['a', 'b', 'c'] : List Char) ∧ 3 ≤ (['a', 'b', 'c'] : List Char).length) ∧
    mask_email (String.mk ((['a', 'b', 'c'] : List Char) ++ '@' :: ['x'])) =
      String.mk ((['a', 'b', 'c'] : List Char).take 1 ++
                 List.replicate ((['a', 'b', 'c'] : List Char).length - 2) '*' ++
                 (['a', 'b', 'c'] : List Char).drop ((['a', 'b', 'c'] : List Char).length - 1) ++
                 '@' :: ['x']) :=
  ⟨⟨by decide, by decide⟩,
   mask_email_amended.1 ['a', 'b', 'c'] ['x'] (by decide) (by decide)⟩

/-- C10: when the dataset has no `manager` column, the manager-role row
filter performs no filtering at all and returns the whole dataset. -/
theorem manager_filter_without_manager_column (df : Df) (ctx : Ctx)
    (h : "manager" ∉ df.cols) :
    filter_data_by_access_level df "manager" ctx = .ok df := by
  unfold filter_data_by_access_level
  rw [if_neg (by decide : ¬("manager" : String) = "admin"), if_pos rfl, if_neg h]

/-- Witness for C10: a frame without a `manager` column is returned whole
to manager carol, foreign row included. -/
theorem manager_filter_without_manager_column_witness :
    ("manager" ∉ dfNoManager.cols) ∧
    filter_data_by_access_level dfNoManager "manager" ctxCarol = .ok dfNoManager :=
  ⟨by decide, manager_filter_without_manager_column dfNoManager ctxCarol (by decide)⟩

/-- C5: a principal whose permission set lacks `export_data` is denied by
`create_secure_export` before sanitization: `sanitize_export_data` is never
invoked, no download is produced, and no DATA_EXPORT audit record is
written. -/
theorem export_denied_without_permission (df : Df) (export_format : String)
    (user_role : String) (perms : List String)
    (h : "export_data" ∉ perms) :
    (create_secure_export df export_format user_role perms).sanitizeInvoked = false ∧
    (create_secure_export df export_format user_role perms).download = none ∧
    ∀ e ∈ (create_secure_export df export_format user_role perms).events,
      e.event_type ≠ "DATA_EXPORT" := by
  have hreq : (alGet permission_map "export").getD ["view_all"] = ["export_data"] := rfl
  have hc : check_data_access_permission "export" user_role perms = false := by
    unfold check_data_access_permission
    rw [hreq]
    simp [List.any_eq_true, List.contains_iff_exists_mem_beq]
    exact h
  unfold create_secure_export
  rw [hc]
  exact ⟨rfl, rfl, by intro e he; simp at he⟩

/-- Witness for C5: a viewer without `export_data` is denied. -/
theorem export_denied_without_permission_witness :
    ("export_data" ∉ (["view_team", "view_reports"] : List String)) ∧
    (create_secure_export dfPeople "csv" "viewer"
      ["view_team", "view_reports"]).sanitizeInvoked = false ∧
    (create_secure_export dfPeople "csv" "viewer"
      ["view_team", "view_reports"]).download = none ∧
    ∀ e ∈ (create_secure_export dfPeople "csv" "viewer"
      ["view_team", "view_reports"]).events, e.event_type ≠ "DATA_EXPORT" :=
  ⟨by decide,
   (export_denied_without_permission dfPeople "csv" "viewer" _ (by decide)).1,
   (export_denied_without_permission dfPeople "csv" "viewer" _ (by decide)).2.1,
   (export_denied_without_permission dfPeople "csv" "viewer" _ (by decide)).2.2⟩

/-- Counterexample for C1: the row filter applied with role `auditor`
returns the row-level people frame itself — same columns, all person rows —
not a department aggregate. -/
theorem auditor_gets_row_level_data :
    filter_data_by_access_level dfPeople "auditor" ctxCarol = .ok dfPeople ∧
    dfPeople.cols = ["uid", "manager", "department", "seniority_level"] ∧
    dfPeople.rows ≠ [] :=
  ⟨rfl, rfl, by decide⟩

/-- C1 as amended: the `viewer` role (on a nonempty frame carrying
`department`, `uid` and `seniority_level` columns) collapses the dataset
into the department aggregate — aggregate column shape, one row per
department value present in the data, each carrying that department's
record count — while the `auditor` role is passed the row-level dataset
unchanged. -/
theorem viewer_aggregates_auditor_passthrough (df : Df) (ctx : Ctx)
    (hne : 0 < df.rows.length) (hd : "department" ∈ df.cols)
    (hu : "uid" ∈ df.cols) (hs : "seniority_level" ∈ df.cols) :
    filter_data_by_access_level df "viewer" ctx = .ok (dept_stats df) ∧
    (dept_stats df).cols = ["Department", "Team_Size", "Common_Seniority"] ∧
    (∀ row ∈ (dept_stats df).rows, ∃ d,
        d ∈ df.rows.map (fun r => cell r "department") ∧
        cell row "Department" = d ∧
        cell row "Team_Size" = toString (deptGroup df d).length) ∧
    (∀ d ∈ df.rows.map (fun r => cell r "department"),
        ∃ row ∈ (dept_stats df).rows, cell row "Department" = d) ∧
    filter_data_by_access_level df "auditor" ctx = .ok df := by
  refine ⟨?_, rfl, ?_, ?_, ?_⟩
  · unfold filter_data_by_access_level
    rw [if_neg (by decide : ¬("viewer" : String) = "admin"),
        if_neg (by decide : ¬("viewer" : String) = "manager"),
        if_pos rfl, if_pos hne, if_pos hd, if_pos ⟨hu, hs⟩]
  · intro row hrow
    simp only [dept_stats, List.mem_map] at hrow
    obtain ⟨d, hdk, rfl⟩ := hrow
    refine ⟨d, ?_, rfl, rfl⟩
    have : d ∈ (df.rows.map (fun r => cell r "department")).dedup := by
      simpa [deptKeys, mem_sortAsc] using hdk
    exact List.mem_dedup.mp this
  · intro d hd'
    refine ⟨[("Department", d),
             ("Team_Size", toString (deptGroup df d).length),
             ("Common_Seniority",
              modeOrUnknown ((deptGroup df d).map (fun r => cell r "seniority_level")))],
            ?_, rfl⟩
    simp only [dept_stats, List.mem_map]
    exact ⟨d, by simpa [deptKeys, mem_sortAsc] using List.mem_dedup.mpr hd', rfl⟩
  · unfold filter_data_by_access_level
    rw [if_neg (by decide : ¬("auditor" : String) = "admin"),
        if_neg (by decide : ¬("auditor" : String) = "manager"),
        if_neg (by decide : ¬("auditor" : String) = "viewer")]

/-- Witness for C1 (amended): the sample people frame aggregates for a
viewer and passes through whole for an auditor. -/
theorem viewer_aggregates_auditor_passthrough_witness :
    (0 < dfPeople.rows.length ∧ "department" ∈ dfPeople.cols ∧
     "uid" ∈ dfPeople.cols ∧ "seniority_level" ∈ dfPeople.cols) ∧
    filter_data_by_access_level dfPeople "viewer" ctxCarol = .ok (dept_stats dfPeople) ∧
    filter_data_by_access_level dfPeople "auditor" ctxCarol = .ok dfPeople :=
  ⟨⟨by decide, by decide, by decide, by decide⟩,
   (viewer_aggregates_auditor_passthrough dfPeople ctxCarol
     (by decide) (by decide) (by decide) (by decide)).1,
   (viewer_aggregates_auditor_passthrough dfPeople ctxCarol
     (by decide) (by decide) (by decide) (by decide)).2.2.2.2⟩

/-- C2: every row the manager-role row filter returns either has its
manager identifier in {the principal's own identifier} ∪ {the principal's
direct reports} or is the principal's own self row; nothing outside that
two-level set — in particular no report three levels down — is ever
returned. -/
theorem manager_filter_scope (df : Df) (ctx : Ctx) (out : Df) (row : Row)
    (hm : "manager" ∈ df.cols) (hu : "uid" ∈ df.cols)
    (hres : filter_data_by_access_level df "manager" ctx = .ok out)
    (hrow : row ∈ out.rows) :
    cell row "manager" = principal_uid ctx ∨
    cell row "manager" ∈ direct_reports_of df (principal_uid ctx) ∨
    cell row "uid" = principal_uid ctx := by
  unfold filter_data_by_access_level at hres
  rw [if_neg (by decide : ¬("manager" : String) = "admin"), if_pos rfl,
      if_pos hm, if_pos hu] at hres
  injection hres with hout
  subst hout
  simp only [manager_team_rows, List.mem_filter] at hrow
  obtain ⟨-, hp⟩ := hrow
  simp only [Bool.or_eq_true, Bool.and_eq_true, beq_iff_eq,
             List.contains_iff_exists_mem_beq] at hp
  rcases hp with (hp | hp) | hp
  · exact Or.inl hp
  · exact Or.inr (Or.inr hp)
  · obtain ⟨-, x, hx, hbeq⟩ := hp
    have hxx : cell row "manager" = x := by simpa using hbeq
    exact Or.inr (Or.inl (hxx ▸ hx))

/-- Witness for C2: carol's filtered frame holds bob (direct report),
alice (report of a direct report) and carol herself; alice's manager "bob"
is one of carol's direct reports. -/
theorem manager_filter_scope_witness :
    ("manager" ∈ dfPeople.cols ∧ "uid" ∈ dfPeople.cols ∧
     filter_data_by_access_level dfPeople "manager" ctxCarol = .ok dfCarolTeam ∧
     rowAlice ∈ dfCarolTeam.rows) ∧
    (cell rowAlice "manager" = principal_uid ctxCarol ∨
     cell rowAlice "manager" ∈ direct_reports_of dfPeople (principal_uid ctxCarol) ∨
     cell rowAlice "uid" = principal_uid ctxCarol) :=
  ⟨⟨by decide, by decide, rfl, by decide⟩,
   manager_filter_scope dfPeople ctxCarol dfCarolTeam rowAlice
     (by decide) (by decide) rfl (by decide)⟩

/- ---------- Fixtures for the federated-callback claims ---------- -/

/-- A token-endpoint response for authorization code "c0". -/
def tokensDemo : Tokens :=
  { access_token := "at0", refresh_token := "rt0",
    id_token := { nonce := "n0", sub := "sub0", realm_roles := ["ldap-analytics-admin"] },
    expires_in := 3600 }

/-- A token endpoint honouring only code "c0". -/
def tokenEndpointDemo : String → Option String → Option Tokens :=
  fun code _verifier => if code = "c0" then some tokensDemo else none

/-- The profile the userinfo endpoint returns for access token "at0". -/
def userInfoDemo : UserInfo :=
  { email := "carol@redhat.com", name := some "Carol",
    preferred_username := "carol", groups := [] }

/-- A userinfo endpoint honouring only access token "at0". -/
def userinfoEndpointDemo : String → Option UserInfo :=
  fun tok => if tok = "at0" then some userInfoDemo else none

/-- A pending flow awaiting the callback: state "s0", nonce "n0". -/
def pendingDemo : PendingFlow :=
  { oauth_state := some "s0", oauth_nonce := some "n0",
    oauth_code_verifier := some "cv0" }

/-- Counterexample for C3: a callback whose `state` is wrong is rejected,
but the pending-flow storage is NOT erased — the stored state survives —
and the very same pending entry is then successfully replayed with the
correct state. -/
theorem state_mismatch_leaves_pending_flow_replayable :
    (handle_callback tokenEndpointDemo userinfoEndpointDemo 0 pendingDemo
      ⟨some "c0", some "evil", none⟩).2 = none ∧
    (handle_callback tokenEndpointDemo userinfoEndpointDemo 0 pendingDemo
      ⟨some "c0", some "evil", none⟩).1 = pendingDemo ∧
    pendingDemo.oauth_state = some "s0" ∧
    ((handle_callback tokenEndpointDemo userinfoEndpointDemo 0 pendingDemo
      ⟨some "c0", some "s0", none⟩).2).isSome = true :=
  ⟨rfl, rfl, rfl, rfl⟩

/-- C3 as amended: a federated callback whose `state` does not equal the
stored pending state is rejected — no tokens, no session — and the
pending-flow storage is left exactly as it was (it is erased only by a
fully successful callback), so the entry remains replayable. -/
theorem state_mismatch_rejected_flow_retained
    (tokenEndpoint : String → Option String → Option Tokens)
    (userinfoEndpoint : String → Option UserInfo) (now : Nat)
    (flow : PendingFlow) (code state : String) (e : Option String)
    (hmismatch : flow.oauth_state ≠ some state) :
    handle_callback tokenEndpoint userinfoEndpoint now flow
      ⟨some code, some state, e⟩ = (flow, none) := by
  have hx : exchange_code_for_tokens tokenEndpoint flow code state = none := by
    unfold exchange_code_for_tokens
    rw [if_pos (fun hh => hmismatch hh.symm)]
  show (match exchange_code_for_tokens tokenEndpoint flow code state with
        | none => (flow, none)
        | some tokens =>
          match userinfoEndpoint tokens.access_token with
          | none => (flow, none)
          | some user_info =>
            match verify_jwt_token flow tokens.id_token with
            | none => (flow, none)
            | some id_token_claims =>
              (⟨none, none, none⟩,
               some (create_user_session user_info id_token_claims tokens now))) =
      (flow, none)
  rw [hx]

/-- Witness for C3 (amended): the demo pending flow rejects state "evil"
and keeps its stored values. -/
theorem state_mismatch_rejected_flow_retained_witness :
    (pendingDemo.oauth_state ≠ some "evil") ∧
    handle_callback tokenEndpointDemo userinfoEndpointDemo 0 pendingDemo
      ⟨some "c0", some "evil", none⟩ = (pendingDemo, none) :=
  ⟨by decide,
   state_mismatch_rejected_flow_retained tokenEndpointDemo userinfoEndpointDemo 0
     pendingDemo "c0" "evil" none (by decide)⟩

/- ---------- C9: the policy engine never writes to the input frame ---------- -/

theorem viewerMaskStep_getElem (m : Nat) (hh : DfHeap) (c : String) (r : Nat)
    (hrm : r ≠ m) : (viewerMaskStep m hh c)[r]? = hh[r]? := by
  unfold viewerMaskStep
  split_ifs <;> simp [List.getElem?_set_ne (Ne.symm hrm)]

theorem managerMaskStep_getElem (m : Nat) (hh : DfHeap) (c : String) (r : Nat)
    (hrm : r ≠ m) : (managerMaskStep m hh c)[r]? = hh[r]? := by
  unfold managerMaskStep
  split_ifs <;> simp [List.getElem?_set_ne (Ne.symm hrm)]

theorem foldl_viewerMaskStep_getElem (cols : List String) (m r : Nat)
    (hrm : r ≠ m) : ∀ hh : DfHeap,
    (cols.foldl (viewerMaskStep m) hh)[r]? = hh[r]? := by
  induction cols with
  | nil => intro hh; rfl
  | cons c cs ih =>
    intro hh
    rw [List.foldl_cons, ih, viewerMaskStep_getElem m hh c r hrm]

theorem foldl_managerMaskStep_getElem (cols : List String) (m r : Nat)
    (hrm : r ≠ m) : ∀ hh : DfHeap,
    (cols.foldl (managerMaskStep m) hh)[r]? = hh[r]? := by
  induction cols with
  | nil => intro hh; rfl
  | cons c cs ih =>
    intro hh
    rw [List.foldl_cons, ih, managerMaskStep_getElem m hh c r hrm]

/-- C9: neither policy-engine operation ever mutates the frame the caller
passed in: whatever the role and context, the input address still holds
exactly the frame it held before the call — the column mask writes only to
the copy it allocated and the row filter only allocates fresh frames. -/
theorem policy_engine_preserves_input_frame (h : DfHeap) (r : Nat)
    (user_role : String) (ctx : Ctx) (hr : r < h.length) :
    ((apply_data_masking_heap h r user_role).1)[r]? = h[r]? ∧
    ((filter_data_by_access_level_heap h r user_role ctx).1)[r]? = h[r]? := by
  have hrm : r ≠ h.length := Nat.ne_of_lt hr
  have key : ∀ l : List Df, (h ++ l)[r]? = h[r]? :=
    fun l => List.getElem?_append_left hr
  constructor
  · unfold apply_data_masking_heap
    split_ifs with h1 h2 h3
    · rfl
    · simpa [foldl_viewerMaskStep_getElem _ _ _ hrm] using key _
    · simpa [foldl_managerMaskStep_getElem _ _ _ hrm] using key _
    · simpa using key _
  · unfold filter_data_by_access_level_heap
    split_ifs <;>
      first
        | rfl
        | (simpa [List.append_assoc] using key _)
        | (dsimp only; split_ifs <;> simpa [List.append_assoc] using key _)

/-- Witness for C9: on a one-frame heap, masking and filtering as a viewer
leave address 0 holding exactly the original people frame. -/
theorem policy_engine_preserves_input_frame_witness :
    0 < ([dfPeople] : DfHeap).length ∧
    ((apply_data_masking_heap [dfPeople] 0 "viewer").1)[0]? =
      ([dfPeople] : DfHeap)[0]? ∧
    ((filter_data_by_access_level_heap [dfPeople] 0 "viewer" ctxCarol).1)[0]? =
      ([dfPeople] : DfHeap)[0]? :=
  ⟨by decide,
   (policy_engine_preserves_input_frame [dfPeople] 0 "viewer" ctxCarol (by decide)).1,
   (policy_engine_preserves_input_frame [dfPeople] 0 "viewer" ctxCarol (by decide)).2⟩
